import Mathlib

/-!
Verification of the helios-secondary-timescale repository core:
a shallow embedding in Lean 4 of the browser session pool
(server/app/services/browser_pool.py), the fetch pipeline
(server/app/services/listing_service.py), the randomized-interval
scheduler (src/scheduler/randomizer.py) and the job manager
(ticket-tracker/src/scheduler/job_manager.py), with theorems settling
the specification claims about them.

Conventions of the embedding:
* machine time is modelled as `Int` seconds for the pool and `ℚ` hours
  for the scheduler;
* Python floats are modelled as `ℚ`;
* each random draw consumed by a randomization strategy is passed in
  explicitly as a `ℚ` parameter, with the guarantee provided by the
  random source (for example `random.uniform(a, b) ∈ [a, b]`)
  expressed as a hypothesis where a theorem needs it;
* fallible code returns `Except`/`Option`; an uncaught Python
  exception is an `Except.error`.
-/

/-! ## Randomization strategies (src/scheduler/randomizer.py)

`calculate_next_interval` dispatches by name through
`RandomizationStrategy.get_strategy` (a dict lookup on the lowercased
name with `uniform_interval` as the default) and applies the chosen
strategy to the base interval.  Each strategy consumes one random
draw, passed here as the explicit `draw` argument:
for `uniform_interval` the draw is the factor returned by
`random.uniform(min_factor, max_factor)` (with the settings defaults
`min_random_factor = 0.7`, `max_random_factor = 1.3` applied because
`calculate_next_interval` calls the strategy with one argument);
for `poisson_interval` the draw is the value of
`np.random.exponential(scale=mean)`, which is nonnegative;
for `normal_interval` the draw is the value of `np.random.normal`,
which is unbounded. -/

/-- Python `str.lower()`: character-wise lowercasing (the strategy
names involved are ASCII). -/
def pyLower (s : String) : String :=
  ⟨s.data.map Char.toLower⟩

namespace RandomizationStrategy

/-- Settings default `min_random_factor = 0.7` (src/config/settings.py). -/
def min_random_factor : ℚ := 7/10

/-- Settings default `max_random_factor = 1.3` (src/config/settings.py). -/
def max_random_factor : ℚ := 13/10

/-- `uniform_interval`: `base_interval * random.uniform(min_factor, max_factor)`;
the uniform draw is the `draw` argument. -/
def uniform_interval (base_interval : ℚ) (draw : ℚ) : ℚ :=
  base_interval * draw

/-- `poisson_interval`: an exponential draw with mean `mean_interval`
(the `draw` argument) clamped by
`max(mean*0.5, min(draw, mean*2.0))`. -/
def poisson_interval (mean_interval : ℚ) (draw : ℚ) : ℚ :=
  max (mean_interval * (1/2)) (min draw (mean_interval * 2))

/-- `normal_interval`: a normal draw centred on `mean_interval`
(the `draw` argument) clamped by
`max(mean*0.5, min(draw, mean*1.5))`. -/
def normal_interval (mean_interval : ℚ) (draw : ℚ) : ℚ :=
  max (mean_interval * (1/2)) (min draw (mean_interval * (3/2)))

/-- `get_strategy`: `strategies.get(strategy_name.lower(), uniform_interval)`
over the dict `{uniform, poisson, normal}` — unknown names fall back
to `uniform_interval`. -/
def get_strategy (strategy_name : String) : ℚ → ℚ → ℚ :=
  let n := pyLower strategy_name
  if n = "uniform" then uniform_interval
  else if n = "poisson" then poisson_interval
  else if n = "normal" then normal_interval
  else uniform_interval

/-- `calculate_next_interval(base_interval, strategy)`: dispatch and
apply; the result is the randomized interval in hours (the Python
code wraps it in a `timedelta`, which we keep as the number of
hours). -/
def calculate_next_interval (base_interval : ℚ) (strategy : String)
    (draw : ℚ) : ℚ :=
  get_strategy strategy base_interval draw

/-- The guarantee the random source gives for the draw consumed by the
strategy `calculate_next_interval` dispatches to:
`random.uniform(a, b)` lies in `[a, b]` (uniform and the unknown-name
fallback), `np.random.exponential` is nonnegative (poisson), and a
normal draw is unbounded. -/
def validDraw (strategy : String) (draw : ℚ) : Bool :=
  let n := pyLower strategy
  if n = "poisson" then decide (0 ≤ draw)
  else if n = "normal" then true
  else decide (min_random_factor ≤ draw) && decide (draw ≤ max_random_factor)

end RandomizationStrategy

/-! ## Jobs (ticket-tracker/src/scheduler/job_manager.py)

A `Job` stores name, work function, base interval, randomization
strategy, timing metadata and a status string.  `Job.execute` sets
`status = "running"`, records `last_run` and bumps `run_count`, runs
the work function capturing success or exception, sets
`status = "completed"` or `"failed"` accordingly, and in a `finally`
block unconditionally calls `_schedule_next_run`, which sets
`next_run = datetime.now() + calculate_next_interval(base, strategy)`.
The work function itself is external, so its outcome is passed in as
`FuncOutcome`; `t_start` is the `datetime.now()` at the top of
`execute` and `t_end` the `datetime.now()` inside
`_schedule_next_run` (the moment execution finished), both in hours. -/

/-- Outcome of calling the job's work function: a normal return or a
raised exception with its message. -/
inductive FuncOutcome where
  | success : FuncOutcome
  | failure : String → FuncOutcome
deriving DecidableEq

structure Job where
  name : String
  base_interval_hours : ℚ
  randomization_strategy : String
  last_run : Option ℚ
  next_run : Option ℚ
  run_count : Nat
  status : String
  error : Option String
deriving DecidableEq

/-- `Job.__init__(name, func, interval_hours, randomization_strategy)`. -/
def Job.mkNew (name : String) (interval_hours : ℚ)
    (randomization_strategy : String := "uniform") : Job :=
  { name := name
    base_interval_hours := interval_hours
    randomization_strategy := randomization_strategy
    last_run := none
    next_run := none
    run_count := 0
    status := "scheduled"
    error := none }

/-- `Job._schedule_next_run`: sets
`next_run = datetime.now() + calculate_next_interval(base, strategy)`
and changes nothing else (in particular it does not touch `status`). -/
def Job.schedule_next_run (j : Job) (t_now : ℚ) (draw : ℚ) : Job :=
  { j with next_run := some (t_now +
      RandomizationStrategy.calculate_next_interval
        j.base_interval_hours j.randomization_strategy draw) }

/-- The status string `Job.execute` assigns after running the work
function: `"completed"` on a normal return, `"failed"` on an
exception. -/
def outcomeStatus : FuncOutcome → String
  | .success => "completed"
  | .failure _ => "failed"

/-- `Job.execute`: `status = "running"`, `last_run = now`,
`run_count += 1`; run the work function; on return set
`status = "completed"`, `error = None`, on exception set
`status = "failed"`, `error = str(e)`; the `finally` block calls
`_schedule_next_run` in both cases. -/
def Job.execute (j : Job) (outcome : FuncOutcome) (t_start t_end : ℚ)
    (draw : ℚ) : Job :=
  let j1 := { j with status := "running", last_run := some t_start,
                     run_count := j.run_count + 1 }
  let j2 := match outcome with
    | .success => { j1 with status := "completed", error := none }
    | .failure msg => { j1 with status := "failed", error := some msg }
  j2.schedule_next_run t_end draw

/-- The successive values the `status` field takes during one call of
`Job.execute`, starting from its value before the call: the method
assigns `"running"` first and `"completed"`/`"failed"` after the work
function, and `_schedule_next_run` performs no further assignment. -/
def Job.statusTrace (j : Job) (outcome : FuncOutcome) : List String :=
  [j.status, "running", outcomeStatus outcome]

/-- Consecutive pairs of a status trace: the individual transitions. -/
def transitionPairs : List String → List (String × String)
  | a :: b :: rest => (a, b) :: transitionPairs (b :: rest)
  | _ => []

/-- The transition chain the specification allows:
`scheduled→running→{completed,failed}→scheduled`. -/
def allowedTransition (p : String × String) : Bool :=
  (p.1 = "scheduled" && p.2 = "running") ||
  (p.1 = "running" && (p.2 = "completed" || p.2 = "failed")) ||
  ((p.1 = "completed" || p.1 = "failed") && p.2 = "scheduled")

/-! ## Browser sessions and the pool (server/app/services/browser_pool.py)

Time is `Int` seconds.  The opaque browser/context handles carry no
state the pool logic reads, so they are omitted from the session
record.  Every `await` in `get_session` and `release_session` happens
inside `async with self.lock`, and the embedding is therefore a
sequential function on the pool state: no other task can interleave
while the lock is held.  The outcomes of the external effects the code
awaits (Playwright start-up, browser launch, the login flow, the
login-state probe page) are supplied by an `Env`. -/

structure BrowserSession where
  id : String
  created_at : Int
  last_used : Int
  request_count : Nat
  in_use : Bool
  logged_in : Bool
  is_alive : Bool
deriving DecidableEq

/-- `BrowserSession.__init__`: fresh session, `request_count = 0`,
`in_use = False`, `logged_in = False`, `_is_alive = True`. -/
def BrowserSession.mkNew (id : String) (now : Int) : BrowserSession :=
  { id := id, created_at := now, last_used := now, request_count := 0,
    in_use := false, logged_in := false, is_alive := true }

/-- `BrowserSession.is_expired(max_requests, max_age_hours=12)`:
`request_count >= max_requests` or
`datetime.now() - created_at > timedelta(hours=max_age_hours)`. -/
def BrowserSession.is_expired (s : BrowserSession) (now : Int)
    (max_requests : Nat) (max_age_hours : Int := 12) : Bool :=
  decide (s.request_count ≥ max_requests) ||
  decide (now - s.created_at > max_age_hours * 3600)

/-- `BrowserSession.update_usage`: `last_used = now`,
`request_count += 1`. -/
def BrowserSession.update_usage (s : BrowserSession) (now : Int) :
    BrowserSession :=
  { s with last_used := now, request_count := s.request_count + 1 }

/-- `BrowserSession.close`: sets `_is_alive = False` before (and even
when) resource teardown fails; teardown errors are swallowed. -/
def BrowserSession.close (s : BrowserSession) : BrowserSession :=
  { s with is_alive := false }

/-- `BrowserSession.ensure_login`: returns `True` at once when already
`logged_in`; otherwise runs the credential flow, whose success is the
external outcome `ok` — on success it sets `logged_in = True`, on any
failure it returns `False` leaving `logged_in` unchanged (all
exceptions are caught inside). -/
def BrowserSession.ensure_login (s : BrowserSession) (ok : Bool) :
    Bool × BrowserSession :=
  if s.logged_in then (true, s)
  else if ok then (true, { s with logged_in := true })
  else (false, s)

/-- Outcome of the login-state probe `get_session` runs on a reused
session that is not `logged_in` (lines 250-268): the probe page shows
the session is still authenticated, shows a redirect to the login URL,
or the probe itself raises (caught and logged, session returned
as-is). -/
inductive CheckOutcome where
  | authed : CheckOutcome
  | needsLogin : CheckOutcome
  | errored : CheckOutcome
deriving DecidableEq

/-- Outcomes of the external effects one `get_session`/`initialize`
call can await: the current wall-clock, whether Playwright starts,
whether a browser launch succeeds and the fresh session id it gets,
whether a credential login flow succeeds, and the login-probe
outcome. -/
structure Env where
  now : Int
  playwrightOk : Bool
  createOk : Bool
  newId : String
  loginOk : Bool
  check : CheckOutcome
deriving DecidableEq

structure BrowserPool where
  max_browsers : Nat
  sessions : List BrowserSession
  initialized : Bool
  session_creation_failures : Nat
  total_requests_handled : Nat
deriving DecidableEq

/-- `BrowserPool.__init__(max_browsers)`: empty session map, not
initialized, zeroed counters. -/
def BrowserPool.mkNew (max_browsers : Nat) : BrowserPool :=
  { max_browsers := max_browsers, sessions := [], initialized := false,
    session_creation_failures := 0, total_requests_handled := 0 }

/-- The ids of the sessions currently in the pool, in map order. -/
def BrowserPool.sessionIds (p : BrowserPool) : List String :=
  p.sessions.map BrowserSession.id

/-- `self.sessions[session_id] = session` with Python-dict semantics:
an existing key is updated in place keeping its position, a new key is
appended. -/
def setSession : List BrowserSession → BrowserSession →
    List BrowserSession
  | [], s => [s]
  | t :: ts, s => if t.id = s.id then s :: ts else t :: setSession ts s

/-- The map scan of `get_session` (line 241) and of its wait loop
(line 293): the first session with `not session.in_use and
session.is_alive`, in map order. -/
def scanFree (ss : List BrowserSession) : Option BrowserSession :=
  ss.find? fun s => !s.in_use && s.is_alive

/-- `BrowserPool._create_new_session`: on launch success a fresh
session keyed by its new id is stored in the map and its id returned;
on any failure (caught inside) `session_creation_failures` is
incremented and `None` returned. -/
def BrowserPool.create_new_session (p : BrowserPool) (env : Env) :
    Option String × BrowserPool :=
  if env.createOk then
    (some env.newId,
     { p with sessions := setSession p.sessions
                (BrowserSession.mkNew env.newId env.now) })
  else
    (none, { p with session_creation_failures :=
                      p.session_creation_failures + 1 })

/-- Apply an update to the session with the given id, in place. -/
def BrowserPool.updateById (p : BrowserPool) (sid : String)
    (f : BrowserSession → BrowserSession) : BrowserPool :=
  { p with sessions := p.sessions.map fun s =>
      if s.id = sid then f s else s }

/-- `BrowserPool.initialize` (the name `initPool` stands for it here):
a no-op when already initialized; otherwise starts Playwright
(propagating its failure as the only uncaught exception), marks the
pool initialized, pre-creates one session when the launch succeeds and
runs `ensure_login` on it. -/
def BrowserPool.initPool (p : BrowserPool) (env : Env) :
    Except Unit BrowserPool :=
  if p.initialized then .ok p
  else if env.playwrightOk then
    let p1 := { p with initialized := true }
    match p1.create_new_session env with
    | (some sid, p2) =>
        .ok (p2.updateById sid fun s => (s.ensure_login env.loginOk).2)
    | (none, p2) => .ok p2
  else .error ()

/-- The login verification `get_session` performs on a reused session
(lines 249-268): skipped when `logged_in`; otherwise a probe page is
opened — if it shows authentication the session is marked
`logged_in`, if it shows the login redirect `ensure_login` runs, and
if the probe raises the session is returned unchanged. -/
def verifyLogin (env : Env) (s : BrowserSession) : BrowserSession :=
  if s.logged_in then s
  else match env.check with
    | .authed => { s with logged_in := true }
    | .needsLogin => (s.ensure_login env.loginOk).2
    | .errored => s

/-- The reuse branch of `get_session` (lines 241-273) applied to the
free session `s` the scan found: `in_use = True`, `update_usage()`,
login verification, return the session. -/
def BrowserPool.acquireExisting (p : BrowserPool) (env : Env)
    (s : BrowserSession) : Option String × BrowserPool :=
  (some s.id, p.updateById s.id fun t =>
    verifyLogin env { t.update_usage env.now with in_use := true })

/-- The bounded wait of `get_session` (lines 291-303): up to 30
iterations of sleep-then-rescan; a session found free is marked
`in_use`, `update_usage()` runs, `ensure_login` runs when it is not
`logged_in`, and its id is returned.  The pool lock is held throughout
(the sleep is inside `async with self.lock`), so in this sequential
embedding no other task can change the map between iterations. -/
def BrowserPool.waitLoop (p : BrowserPool) (env : Env) :
    Nat → Option String × BrowserPool
  | 0 => (none, p)
  | n + 1 =>
    match scanFree p.sessions with
    | some s =>
        (some s.id, p.updateById s.id fun t =>
          let t1 := { t.update_usage env.now with in_use := true }
          if t1.logged_in then t1 else (t1.ensure_login env.loginOk).2)
    | none => p.waitLoop env n

/-- The body of `BrowserPool.get_session` under the lock
(lines 237-307): bump `total_requests_handled`, scan for a free alive
session and reuse it; otherwise create a new session when
`len(sessions) < max_browsers` (marking it in use, updating usage and
running `ensure_login` on it); otherwise (and when creation fails)
poll up to 30 times for a session to become free, returning `None` on
timeout. -/
def BrowserPool.get_session_core (p0 : BrowserPool) (env : Env) :
    Option String × BrowserPool :=
  let p := { p0 with total_requests_handled :=
                       p0.total_requests_handled + 1 }
  match scanFree p.sessions with
  | some s => p.acquireExisting env s
  | none =>
    if p.sessions.length < p.max_browsers then
      match p.create_new_session env with
      | (some sid, p1) =>
          (some sid, p1.updateById sid fun s =>
            (({ s.update_usage env.now with in_use := true
              }).ensure_login env.loginOk).2)
      | (none, p1) => p1.waitLoop env 30
    else p.waitLoop env 30

/-- `BrowserPool.get_session`: initialize first when needed
(propagating an initialization failure, the only uncaught exception),
then run the locked body. -/
def BrowserPool.get_session (p0 : BrowserPool) (env : Env) :
    Except Unit (Option String × BrowserPool) :=
  match (if p0.initialized then Except.ok p0 else p0.initPool env) with
  | .error e => .error e
  | .ok p => .ok (p.get_session_core env)

/-- `BrowserPool.release_session(session_id)`: under the lock, when
the id is in the map the session's `in_use` is cleared, its storage
state is persisted (an effect outside the pool state) and `True` is
returned; an unknown id returns `False` and changes nothing. -/
def BrowserPool.release_session (p : BrowserPool) (sid : String) :
    Bool × BrowserPool :=
  if p.sessions.any fun s => s.id = sid then
    (true, p.updateById sid fun s => { s with in_use := false })
  else (false, p)

/-- `BrowserPool.close_all`: every session is closed, the map is
cleared, Playwright is stopped and the pool is marked uninitialized,
so a later `get_session` reinitializes transparently. -/
def BrowserPool.close_all (p : BrowserPool) : BrowserPool :=
  { p with sessions := [], initialized := false }

/-- The pool states reachable from a freshly constructed pool of
capacity `maxb` through the pool's public operations (`initialize`,
`get_session`, `release_session`, `close_all`); an operation that
raises leaves the state unchanged, so only `.ok` results step. -/
inductive ReachablePool (maxb : Nat) : BrowserPool → Prop where
  | base : ReachablePool maxb (BrowserPool.mkNew maxb)
  | initStep {p p' : BrowserPool} {env : Env} :
      ReachablePool maxb p → p.initPool env = .ok p' →
      ReachablePool maxb p'
  | getStep {p p' : BrowserPool} {r : Option String} {env : Env} :
      ReachablePool maxb p → p.get_session env = .ok (r, p') →
      ReachablePool maxb p'
  | releaseStep {p : BrowserPool} {sid : String} :
      ReachablePool maxb p →
      ReachablePool maxb (p.release_session sid).2
  | closeStep {p : BrowserPool} :
      ReachablePool maxb p → ReachablePool maxb p.close_all

/-! ## Lock discipline of acquire and release

To reason about which awaits happen while the pool's
mutual-exclusion lock is held, the control flow of
`BrowserPool.get_session` and `BrowserPool.release_session` is also
embedded as sequences of atomic events: lock acquisition and release
(entry and exit of `async with self.lock`), pure in-memory steps, and
awaited suspension points that perform I/O or sleep.  Each trace below
transcribes one concrete, reachable path through the source,
line-for-line. -/

/-- One atomic event of a pool method: taking or releasing the pool
lock, a pure in-memory step, or an awaited suspension point performing
I/O or sleep. -/
inductive PoolEvent where
  | lockAcquire : PoolEvent
  | lockRelease : PoolEvent
  | ioAwait : String → PoolEvent
  | pureStep : String → PoolEvent
deriving DecidableEq

/-- `release_session` called with an id that is in the map
(lines 309-321): the whole body, including the awaited
`_save_storage` (a `context.storage_state()` round-trip plus a file
write), runs inside `async with self.lock`. -/
def release_session_trace : List PoolEvent :=
  [ .lockAcquire,
    .pureStep "check session_id in self.sessions",
    .pureStep "session.in_use = False",
    .ioAwait "save storage state to browser_data file",
    .pureStep "return True",
    .lockRelease ]

/-- `get_session` on an initialized pool whose sessions are all in use
at full capacity (lines 237-307): the scan finds nothing, the capacity
check fails, and the 30-iteration wait loop — `await asyncio.sleep(1)`
then rescan, all still inside `async with self.lock` — times out and
returns `None`. -/
def get_session_busy_trace : List PoolEvent :=
  [ .lockAcquire,
    .pureStep "total_requests_handled += 1",
    .pureStep "scan sessions for a free alive session: none",
    .pureStep "len sessions < max_browsers: false" ] ++
  (List.replicate 30
    [ PoolEvent.ioAwait "asyncio.sleep 1",
      PoolEvent.pureStep "rescan sessions: none free" ]).flatten ++
  [ .pureStep "return None",
    .lockRelease ]

/-- `get_session` on an initialized pool below capacity with no free
session (lines 237-287): a new browser is launched and logged in, both
awaited inside `async with self.lock`. -/
def get_session_create_trace : List PoolEvent :=
  [ .lockAcquire,
    .pureStep "total_requests_handled += 1",
    .pureStep "scan sessions for a free alive session: none",
    .pureStep "len sessions < max_browsers: true",
    .ioAwait "launch chromium browser and new context",
    .pureStep "session.in_use = True and update_usage",
    .ioAwait "session.ensure_login navigation and login flow",
    .pureStep "return session",
    .lockRelease ]

/-- The awaited suspension points of a trace, each with the lock depth
at which it executes (`0` means the lock is not held). -/
def suspensionDepths : Nat → List PoolEvent → List (String × Nat)
  | _, [] => []
  | d, PoolEvent.lockAcquire :: rest => suspensionDepths (d + 1) rest
  | d, PoolEvent.lockRelease :: rest => suspensionDepths (d - 1) rest
  | d, PoolEvent.ioAwait s :: rest => (s, d) :: suspensionDepths d rest
  | d, PoolEvent.pureStep _ :: rest => suspensionDepths d rest

/-- The suspension points of a trace that execute while the lock is
held. -/
def suspensionsUnderLock (tr : List PoolEvent) : List (String × Nat) :=
  (suspensionDepths 0 tr).filter fun x => 0 < x.2

/-! ## Listing stats (server/app/services/listing_service.py)

`_process_event_and_listings` counts all listings, extracts a price
from `listing["sellerAllInPrice"]["amt"]` when the keys exist, the
value is not `None` and is strictly positive, tallies per-section
counts keyed by `listing.get("section", "Unknown")`, and computes
min/max/mean and the sorted-list element at index `len//2` as the
median — all zero when no price qualified.  Prices are `ℚ`;
`round(x, 2)` is Python's round-half-to-even at two decimals. -/

/-- The `sellerAllInPrice` value of a listing, when the key exists:
`amt = none` models a missing `"amt"` key, `amt = some none` an `amt`
whose value is `None`, and `amt = some (some q)` a numeric `amt`. -/
structure SellerPrice where
  amt : Option (Option ℚ)
deriving DecidableEq

/-- One raw listing as intercepted from the API: the
`sellerAllInPrice` object when the key exists, and the `section` value
when that key exists (`_process_event_and_listings` reads nothing
else). -/
structure Listing where
  sellerAllInPrice : Option SellerPrice
  sectionName : Option String
deriving DecidableEq

/-- The price `_process_event_and_listings` appends to `prices` for a
listing, if any: requires the `sellerAllInPrice` key, the `amt` key,
a non-`None` value and `price > 0` (lines 636-641). -/
def listingPrice (l : Listing) : Option ℚ :=
  match l.sellerAllInPrice with
  | some sp =>
    match sp.amt with
    | some (some price) => if 0 < price then some price else none
    | _ => none
  | none => none

/-- Round to the nearest integer, ties to even — Python's `round`. -/
def roundHalfEven (y : ℚ) : ℤ :=
  if y - ⌊y⌋ < 1/2 then ⌊y⌋
  else if 1/2 < y - ⌊y⌋ then ⌊y⌋ + 1
  else if ⌊y⌋ % 2 = 0 then ⌊y⌋ else ⌊y⌋ + 1

/-- Python `round(x, 2)`: round half to even at two decimals. -/
def pyRound2 (x : ℚ) : ℚ :=
  (roundHalfEven (x * 100) : ℚ) / 100

/-- `round(x, 2) if x else 0` — the truthiness guard the stats dict
applies to each price figure (lines 673-676). -/
def roundIfTruthy (x : ℚ) : ℚ :=
  if x = 0 then 0 else pyRound2 x

/-- `sections[section] += 1` with Python-dict semantics (an existing
key keeps its position, a new key is appended with count 1). -/
def bumpSection (secs : List (String × Nat)) (name : String) :
    List (String × Nat) :=
  match secs with
  | [] => [(name, 1)]
  | (k, v) :: rest =>
      if k = name then (k, v + 1) :: rest
      else (k, v) :: bumpSection rest name

/-- The per-section counts of the listings, keyed by
`listing.get("section", "Unknown")`, accumulated in listing order. -/
def sectionCounts (ls : List Listing) : List (String × Nat) :=
  ls.foldl (fun acc l => bumpSection acc (l.sectionName.getD "Unknown")) []

/-- Python `min` over a nonempty list (0 on `[]`, unreached). -/
def listMin : List ℚ → ℚ
  | [] => 0
  | x :: xs => xs.foldl min x

/-- Python `max` over a nonempty list (0 on `[]`, unreached). -/
def listMax : List ℚ → ℚ
  | [] => 0
  | x :: xs => xs.foldl max x

/-- Insert into a sorted list, keeping it sorted ascending. -/
def insertSorted (x : ℚ) : List ℚ → List ℚ
  | [] => [x]
  | y :: ys => if x ≤ y then x :: y :: ys else y :: insertSorted x ys

/-- Python `sorted(prices)`: ascending insertion sort. -/
def sortPrices (l : List ℚ) : List ℚ :=
  l.foldr insertSorted []

/-- The `stats` object `_process_event_and_listings` builds. -/
structure PriceStats where
  total_listings : Nat
  min_price : ℚ
  max_price : ℚ
  avg_price : ℚ
  median_price : ℚ
  sections : List (String × Nat)
deriving DecidableEq

/-- The stats computation of `_process_event_and_listings`
(lines 625-678): `total_listings = len(listings)`; qualifying prices
collected in order; `min`, `max`, `sum/len` and
`sorted(prices)[len(prices)//2]` when any price qualified, all zero
otherwise; each figure passed through `round(_, 2) if _ else 0`;
per-section counts over all listings. -/
def computeStats (ls : List Listing) : PriceStats :=
  let prices := ls.filterMap listingPrice
  let min_price : ℚ := if prices = [] then 0 else listMin prices
  let max_price : ℚ := if prices = [] then 0 else listMax prices
  let avg_price : ℚ :=
    if prices = [] then 0
    else (prices.foldl (· + ·) 0) / (prices.length : ℚ)
  let median_price : ℚ :=
    if prices = [] then 0
    else (sortPrices prices).getD ((sortPrices prices).length / 2) 0
  { total_listings := ls.length
    min_price := roundIfTruthy min_price
    max_price := roundIfTruthy max_price
    avg_price := roundIfTruthy avg_price
    median_price := roundIfTruthy median_price
    sections := sectionCounts ls }

/-! ## The fetch pipeline entry point
(`get_event_listings`, listing_service.py lines 45-145)

`get_event_listings` acquires a session from the pool, navigates to
the event page (`_fetch_event_data`, which raises after 3 failed
navigation attempts), intercepts the listings API response
(`_fetch_listing_data`, which returns an empty list after its bounded
recovery attempts rather than raising on timeout), processes the
result, and in a `finally` block releases the session.  The outer
`except` block logs, takes a screenshot and then re-raises
(line 140).  The pool interaction and the intercepted data are
supplied as explicit outcomes. -/

/-- What `browser_pool.get_session()` did for this fetch: returned
`None` (exhausted/timed out), raised, or returned a session. -/
inductive AcquireOutcome where
  | exhausted : AcquireOutcome
  | raised : String → AcquireOutcome
  | acquired : String → AcquireOutcome
deriving DecidableEq

/-- What `_fetch_event_data` did: navigation verified, or all 3
attempts failed and it raised
`Exception("Failed to navigate to event page ... after multiple
attempts")`. -/
inductive NavOutcome where
  | ok : NavOutcome
  | failedAllRetries : NavOutcome
deriving DecidableEq

/-- The parts of the response dict of `get_event_listings` the claims
are about: the listings list, the stats payload, and the `error` entry
of `metadata` when one is set. -/
structure FetchResponse where
  event_id : String
  listings : List Listing
  statsCount : Option Nat
  statsError : Option String
  priceStats : Option PriceStats
  metadataError : Option String
deriving DecidableEq

/-- `get_event_listings(event_id, ...)`: pool exhaustion
(`get_session` returning `None`) and a raising `get_session` are both
caught and turned into a minimal response with `listings = []`, an
error `stats` dict and an `error` entry in `metadata`; after a
successful acquire, a navigation failure propagates out of the outer
`except` block, which re-raises after logging (line 140); otherwise
the intercepted listings (possibly empty, when interception and all
its fallbacks produced nothing) are processed by
`_process_event_and_listings`, whose metadata carries no `error`
entry. -/
def get_event_listings (event_id : String) (acq : AcquireOutcome)
    (nav : NavOutcome) (intercepted : List Listing) :
    Except String FetchResponse :=
  match acq with
  | .exhausted =>
      .ok { event_id := event_id, listings := [],
            statsCount := some 0,
            statsError := some "Browser session unavailable",
            priceStats := none,
            metadataError := some "Browser pool exhausted" }
  | .raised msg =>
      .ok { event_id := event_id, listings := [],
            statsCount := some 0,
            statsError := some msg,
            priceStats := none,
            metadataError := some "Browser session error" }
  | .acquired _ =>
    match nav with
    | .failedAllRetries =>
        .error ("Failed to navigate to event page for " ++ event_id ++
                " after multiple attempts")
    | .ok =>
        .ok { event_id := event_id, listings := intercepted,
              statsCount := none,
              statsError := none,
              priceStats := some (computeStats intercepted),
              metadataError := none }

/-! ## Concrete states used by the theorems below -/

/-- The structural invariant of a pool of capacity `maxb`: the
configured capacity, the capacity bound on the session map, and the
fact that an uninitialized pool has an empty map (sessions are only
ever created after initialization, and `close_all` clears the map when
it resets `initialized`). -/
def PoolInv (maxb : Nat) (p : BrowserPool) : Prop :=
  p.max_browsers = maxb ∧ p.sessions.length ≤ maxb ∧
  (p.initialized = false → p.sessions = [])

/-- An environment whose external effects all succeed. -/
def envPlain : Env :=
  { now := 100, playwrightOk := true, createOk := true,
    newId := "session_new1", loginOk := true, check := .authed }

/-- A session currently loaned out. -/
def busySession (id : String) : BrowserSession :=
  { id := id, created_at := 0, last_used := 50, request_count := 1,
    in_use := true, logged_in := true, is_alive := true }

/-- A capacity-2 pool both of whose sessions are loaned out — the
state after two `get_session` calls with no release. -/
def pBusy : BrowserPool :=
  { max_browsers := 2,
    sessions := [busySession "session_a", busySession "session_b"],
    initialized := true, session_creation_failures := 0,
    total_requests_handled := 2 }

/-- A free, alive, logged-in session that has reached
`MAX_REQUESTS_PER_SESSION = 20` requests, so
`is_expired(20) = True`. -/
def expiredSession : BrowserSession :=
  { id := "session_old", created_at := 0, last_used := 90,
    request_count := 20, in_use := false, logged_in := true,
    is_alive := true }

/-- A pool holding only `expiredSession`. -/
def pWithExpired : BrowserPool :=
  { max_browsers := 3, sessions := [expiredSession],
    initialized := true, session_creation_failures := 0,
    total_requests_handled := 20 }

/-- What the scan branch of `get_session` turns `expiredSession` into
when it hands it out at `now = 100`: usage updated, marked in use,
still alive and still in the map. -/
def expiredSessionAfter : BrowserSession :=
  { id := "session_old", created_at := 0, last_used := 100,
    request_count := 21, in_use := true, logged_in := true,
    is_alive := true }

/-- A listing carrying a positive `sellerAllInPrice.amt` and a
`section`. -/
def pricedListing (q : ℚ) (sec : String) : Listing :=
  { sellerAllInPrice := some { amt := some (some q) },
    sectionName := some sec }

/-- Listings with prices 10, 20, 30, 40. -/
def sampleListings : List Listing :=
  [pricedListing 10 "A", pricedListing 20 "A",
   pricedListing 30 "B", pricedListing 40 "B"]

/-- A listing whose `sellerAllInPrice.amt` is present but not strictly
positive, so it contributes no price. -/
def unpricedListing : Listing :=
  { sellerAllInPrice := some { amt := some (some (-5)) },
    sectionName := some "GA" }

/-- A job observed right after its first (successful) execution. -/
def jobAfterFirstRun : Job :=
  (Job.mkNew "tracked-events-update" 12 "uniform").execute
    .success 0 1 1

/-! ## Theorems -/

namespace RandomizationStrategy

/-- Every strategy returns a strictly positive interval on a positive
base interval, given the random source's guarantee for the draw. -/
theorem calculate_next_interval_pos (base : ℚ) (strategy : String) (draw : ℚ)
    (hbase : 0 < base) (hdraw : validDraw strategy draw = true) :
    0 < calculate_next_interval base strategy draw := by
  unfold calculate_next_interval get_strategy
  unfold validDraw at hdraw
  dsimp only at hdraw ⊢
  have h7 : (0 : ℚ) < min_random_factor := by norm_num [min_random_factor]
  by_cases hp : pyLower strategy = "poisson"
  · have hnu : pyLower strategy ≠ "uniform" := by rw [hp]; decide
    rw [if_neg hnu, if_pos hp]
    unfold poisson_interval
    exact lt_max_of_lt_left (by linarith)
  · rw [if_neg hp] at hdraw
    by_cases hn : pyLower strategy = "normal"
    · have hnu : pyLower strategy ≠ "uniform" := by rw [hn]; decide
      rw [if_neg hnu, if_neg hp, if_pos hn]
      unfold normal_interval
      exact lt_max_of_lt_left (by linarith)
    · rw [if_neg hn] at hdraw
      rw [Bool.and_eq_true, decide_eq_true_eq, decide_eq_true_eq] at hdraw
      have hfac : 0 < draw := lt_of_lt_of_le h7 hdraw.1
      by_cases hu : pyLower strategy = "uniform"
      · rw [if_pos hu]
        exact mul_pos hbase hfac
      · rw [if_neg hu, if_neg hp, if_neg hn]
        exact mul_pos hbase hfac

end RandomizationStrategy

/-- C7: `calculate_next_interval(b, name)` for any name whose
lowercasing is none of `uniform`/`poisson`/`normal` — in particular
`"unknown-strategy"` — dispatches to exactly the same strategy
function as `calculate_next_interval(b, "uniform")` and therefore
computes the same interval from the same base and random draw. -/
theorem claim7_unknown_strategy_falls_back_to_uniform (name : String)
    (hu : pyLower name ≠ "uniform") (hp : pyLower name ≠ "poisson")
    (hn : pyLower name ≠ "normal") :
    RandomizationStrategy.get_strategy name =
      RandomizationStrategy.get_strategy "uniform" ∧
    ∀ base draw : ℚ,
      RandomizationStrategy.calculate_next_interval base name draw =
        RandomizationStrategy.calculate_next_interval base "uniform" draw := by
  have hdisp : RandomizationStrategy.get_strategy name =
      RandomizationStrategy.get_strategy "uniform" := by
    unfold RandomizationStrategy.get_strategy
    dsimp only
    rw [if_neg hu, if_neg hp, if_neg hn]
    have hlow : pyLower "uniform" = "uniform" := rfl
    rw [hlow, if_pos rfl]
  refine ⟨hdisp, fun base draw => ?_⟩
  unfold RandomizationStrategy.calculate_next_interval
  rw [hdisp]

/-- Witness for C7 at the concrete unknown name
`"unknown-strategy"`. -/
theorem claim7_unknown_strategy_witness :
    RandomizationStrategy.calculate_next_interval 2 "unknown-strategy" 1 =
      RandomizationStrategy.calculate_next_interval 2 "uniform" 1 :=
  (claim7_unknown_strategy_falls_back_to_uniform "unknown-strategy"
    (by decide) (by decide) (by decide)).2 2 1

/-- C4: every execution of a job — the work function returning
normally or raising alike — sets `next_run` to the finish time plus a
fresh interval computed from the job's own base interval and strategy,
and that `next_run` is strictly later than the finish time (positive
base interval and a draw within the random source's guarantee). -/
theorem claim4_reschedule_after_every_execution (j : Job)
    (o : FuncOutcome) (t_start t_end draw : ℚ)
    (hbase : 0 < j.base_interval_hours)
    (hdraw : RandomizationStrategy.validDraw
               j.randomization_strategy draw = true) :
    (j.execute o t_start t_end draw).next_run =
      some (t_end + RandomizationStrategy.calculate_next_interval
        j.base_interval_hours j.randomization_strategy draw) ∧
    ∀ t : ℚ, (j.execute o t_start t_end draw).next_run = some t →
      t_end < t := by
  have hrun : (j.execute o t_start t_end draw).next_run =
      some (t_end + RandomizationStrategy.calculate_next_interval
        j.base_interval_hours j.randomization_strategy draw) := by
    cases o <;> rfl
  refine ⟨hrun, fun t ht => ?_⟩
  rw [hrun] at ht
  have hiv := RandomizationStrategy.calculate_next_interval_pos
    j.base_interval_hours j.randomization_strategy draw hbase hdraw
  have ht' : t = t_end + RandomizationStrategy.calculate_next_interval
      j.base_interval_hours j.randomization_strategy draw :=
    (Option.some.injEq _ _).mp ht.symm
  rw [ht']
  linarith

/-- Witness for C4: a job with a 12-hour base interval and the uniform
strategy, whose work function raises, finishing at time 1 with a draw
of 1. -/
theorem claim4_reschedule_witness :
    ((Job.mkNew "listing-refresh" 12 "uniform").execute
        (.failure "boom") 0 1 1).next_run =
      some (1 + RandomizationStrategy.calculate_next_interval
        (Job.mkNew "listing-refresh" 12 "uniform").base_interval_hours
        (Job.mkNew "listing-refresh" 12 "uniform").randomization_strategy 1) ∧
    ∀ t : ℚ,
      ((Job.mkNew "listing-refresh" 12 "uniform").execute
          (.failure "boom") 0 1 1).next_run = some t → 1 < t :=
  claim4_reschedule_after_every_execution
    (Job.mkNew "listing-refresh" 12 "uniform") (.failure "boom") 0 1 1
    (by norm_num [Job.mkNew])
    (by
      unfold RandomizationStrategy.validDraw
      dsimp only
      rw [if_neg (by decide), if_neg (by decide)]
      rw [Bool.and_eq_true, decide_eq_true_eq, decide_eq_true_eq]
      constructor <;>
        norm_num [Job.mkNew, RandomizationStrategy.min_random_factor,
          RandomizationStrategy.max_random_factor])

/-- Storing a session whose id is already in the map keeps the map
length. -/
theorem setSession_length_of_mem (ss : List BrowserSession)
    (s : BrowserSession) (h : ∃ t ∈ ss, t.id = s.id) :
    (setSession ss s).length = ss.length := by
  induction ss with
  | nil => simp at h
  | cons t ts ih =>
    by_cases ht : t.id = s.id
    · simp [setSession, ht]
    · obtain ⟨u, hu, hid⟩ := h
      rcases List.mem_cons.mp hu with rfl | hu
      · exact absurd hid ht
      · simp only [setSession, if_neg ht, List.length_cons]
        rw [ih ⟨u, hu, hid⟩]

/-- Storing a session grows the map by at most one entry. -/
theorem setSession_length_le (ss : List BrowserSession)
    (s : BrowserSession) :
    (setSession ss s).length ≤ ss.length + 1 := by
  induction ss with
  | nil => simp [setSession]
  | cons t ts ih =>
    by_cases ht : t.id = s.id
    · simp [setSession, ht]
    · simp only [setSession, if_neg ht, List.length_cons]
      omega

/-- `updateById` never changes the map length nor the other pool
fields. -/
theorem updateById_shape (p : BrowserPool) (sid : String)
    (f : BrowserSession → BrowserSession) :
    (p.updateById sid f).sessions.length = p.sessions.length ∧
    (p.updateById sid f).max_browsers = p.max_browsers ∧
    (p.updateById sid f).initialized = p.initialized := by
  simp [BrowserPool.updateById]

/-- When no session is free, the bounded wait loop spins to its end
and returns `None` with the pool unchanged. -/
theorem waitLoop_of_scanFree_none (p : BrowserPool) (env : Env)
    (h : scanFree p.sessions = none) :
    ∀ n : Nat, p.waitLoop env n = (none, p) := by
  intro n
  induction n with
  | zero => rfl
  | succ n ih =>
    unfold BrowserPool.waitLoop
    rw [h]
    exact ih

/-- The wait loop never changes the map length nor the other pool
fields. -/
theorem waitLoop_shape (p : BrowserPool) (env : Env) :
    ∀ n : Nat,
      (p.waitLoop env n).2.sessions.length = p.sessions.length ∧
      (p.waitLoop env n).2.max_browsers = p.max_browsers ∧
      (p.waitLoop env n).2.initialized = p.initialized := by
  intro n
  induction n with
  | zero => exact ⟨rfl, rfl, rfl⟩
  | succ n ih =>
    unfold BrowserPool.waitLoop
    cases h : scanFree p.sessions with
    | some s => simpa using updateById_shape p s.id _
    | none => exact ih

/-- The locked body of `get_session` keeps the configured capacity and
the initialization flag, and keeps the session count within
`max p.sessions.length p.max_browsers`. -/
theorem get_session_core_shape (p : BrowserPool) (env : Env) :
    (p.get_session_core env).2.max_browsers = p.max_browsers ∧
    (p.get_session_core env).2.initialized = p.initialized ∧
    (p.get_session_core env).2.sessions.length ≤
      max p.sessions.length p.max_browsers := by
  unfold BrowserPool.get_session_core
  dsimp only
  cases hscan : scanFree p.sessions with
  | some s =>
    dsimp only
    unfold BrowserPool.acquireExisting
    obtain ⟨h1, h2, h3⟩ := updateById_shape
      { p with total_requests_handled := p.total_requests_handled + 1 }
      s.id (fun t => verifyLogin env { t.update_usage env.now with in_use := true })
    exact ⟨h2, h3, by rw [h1]; exact le_max_left _ _⟩
  | none =>
    dsimp only
    by_cases hlen : p.sessions.length < p.max_browsers
    · rw [if_pos hlen]
      unfold BrowserPool.create_new_session
      by_cases hc : env.createOk
      · rw [if_pos hc]
        dsimp only
        obtain ⟨h1, h2, h3⟩ := updateById_shape
          { p with
              total_requests_handled := p.total_requests_handled + 1,
              sessions := setSession p.sessions
                (BrowserSession.mkNew env.newId env.now) }
          env.newId (fun s =>
            (({ s.update_usage env.now with in_use := true
               }).ensure_login env.loginOk).2)
        refine ⟨h2, h3, ?_⟩
        rw [h1]
        dsimp only
        calc (setSession p.sessions
                (BrowserSession.mkNew env.newId env.now)).length
            ≤ p.sessions.length + 1 := setSession_length_le _ _
          _ ≤ p.max_browsers := hlen
          _ ≤ max p.sessions.length p.max_browsers := le_max_right _ _
      · rw [if_neg hc]
        dsimp only
        obtain ⟨h1, h2, h3⟩ := waitLoop_shape
          { p with
              total_requests_handled := p.total_requests_handled + 1,
              session_creation_failures :=
                p.session_creation_failures + 1 } env 30
        exact ⟨h2, h3, by rw [h1]; exact le_max_left _ _⟩
    · rw [if_neg hlen]
      obtain ⟨h1, h2, h3⟩ := waitLoop_shape
        { p with total_requests_handled := p.total_requests_handled + 1 }
        env 30
      exact ⟨h2, h3, by rw [h1]; exact le_max_left _ _⟩

/-- Initialization preserves the pool invariant (the capacity must
admit the one pre-created session) and leaves the pool marked
initialized on success. -/
theorem initPool_PoolInv {maxb : Nat} {p p' : BrowserPool} {env : Env}
    (hmax : 1 ≤ maxb) (hInv : PoolInv maxb p)
    (h : p.initPool env = .ok p') :
    PoolInv maxb p' ∧ p'.initialized = true := by
  obtain ⟨hm, hl, he⟩ := hInv
  unfold BrowserPool.initPool at h
  by_cases hi : p.initialized
  · rw [if_pos hi] at h
    cases h
    exact ⟨⟨hm, hl, he⟩, hi⟩
  · rw [if_neg hi] at h
    have hemp : p.sessions = [] := he (by simpa using hi)
    by_cases hpw : env.playwrightOk
    · rw [if_pos hpw] at h
      unfold BrowserPool.create_new_session at h
      dsimp only at h
      by_cases hc : env.createOk
      · rw [if_pos hc] at h
        dsimp only at h
        cases h
        refine ⟨⟨hm, ?_, ?_⟩, rfl⟩
        · simp [BrowserPool.updateById, hemp, setSession]
          exact hmax
        · intro hcontr
          simp [BrowserPool.updateById] at hcontr
      · rw [if_neg hc] at h
        dsimp only at h
        cases h
        refine ⟨⟨hm, by simp [hemp], ?_⟩, rfl⟩
        intro hcontr
        simp at hcontr
    · rw [if_neg hpw] at h
      cases h

/-- `release_session` preserves the pool invariant. -/
theorem release_PoolInv {maxb : Nat} {p : BrowserPool} (sid : String)
    (hInv : PoolInv maxb p) :
    PoolInv maxb (p.release_session sid).2 := by
  obtain ⟨hm, hl, he⟩ := hInv
  unfold BrowserPool.release_session
  by_cases h : p.sessions.any fun s => s.id = sid
  · rw [if_pos h]
    refine ⟨hm, ?_, ?_⟩
    · simpa [BrowserPool.updateById] using hl
    · intro hinit
      simp only [BrowserPool.updateById] at hinit ⊢
      rw [he hinit]
      rfl
  · rw [if_neg h]
    exact ⟨hm, hl, he⟩

/-- `get_session` preserves the pool invariant. -/
theorem get_session_PoolInv {maxb : Nat} {p p' : BrowserPool}
    {r : Option String} {env : Env}
    (hmax : 1 ≤ maxb) (hInv : PoolInv maxb p)
    (h : p.get_session env = .ok (r, p')) : PoolInv maxb p' := by
  unfold BrowserPool.get_session at h
  by_cases hi : p.initialized
  · rw [if_pos hi] at h
    dsimp only at h
    injection h with h2
    have hq : p' = (p.get_session_core env).2 := congrArg Prod.snd h2.symm
    obtain ⟨c1, c2, c3⟩ := get_session_core_shape p env
    refine ⟨hq ▸ c1.trans hInv.1, ?_, ?_⟩
    · rw [hq]
      refine le_trans c3 ?_
      rw [hInv.1]
      exact max_le hInv.2.1 le_rfl
    · intro hcontr
      rw [hq, c2] at hcontr
      rw [hi] at hcontr
      cases hcontr
  · rw [if_neg hi] at h
    cases hini : p.initPool env with
    | error e => rw [hini] at h; cases h
    | ok q =>
      rw [hini] at h
      dsimp only at h
      obtain ⟨hqInv, hqInit⟩ := initPool_PoolInv hmax hInv hini
      injection h with h2
      have hq : p' = (q.get_session_core env).2 := congrArg Prod.snd h2.symm
      obtain ⟨c1, c2, c3⟩ := get_session_core_shape q env
      refine ⟨hq ▸ c1.trans hqInv.1, ?_, ?_⟩
      · rw [hq]
        refine le_trans c3 ?_
        rw [hqInv.1]
        exact max_le hqInv.2.1 le_rfl
      · intro hcontr
        rw [hq, c2, hqInit] at hcontr
        cases hcontr

/-- Every pool state reachable through the public operations
satisfies the pool invariant, for any capacity of at least 1. -/
theorem reachable_PoolInv {maxb : Nat} (hmax : 1 ≤ maxb) :
    ∀ p : BrowserPool, ReachablePool maxb p → PoolInv maxb p := by
  intro p h
  induction h with
  | base => exact ⟨rfl, Nat.zero_le _, fun _ => rfl⟩
  | initStep _ hok ih => exact (initPool_PoolInv hmax ih hok).1
  | getStep _ hok ih => exact get_session_PoolInv hmax ih hok
  | releaseStep _ ih => exact release_PoolInv _ ih
  | closeStep _ ih =>
    exact ⟨ih.1, by simp [BrowserPool.close_all],
           fun _ => by simp [BrowserPool.close_all]⟩

/-- C1: with capacity 2, every reachable pool state holds at most 2
sessions; and a `get_session` call on an initialized capacity-2 pool
both of whose sessions are loaned out (the state after two acquires
with no release) creates no third session — it spins its bounded
30-iteration wait (no release can interleave, the lock being held)
and returns the pool-exhaustion indicator `None`, leaving the session
map untouched and only bumping the request counter. -/
theorem claim1_third_acquire_never_exceeds_capacity :
    (∀ p : BrowserPool, ReachablePool 2 p → p.sessions.length ≤ 2) ∧
    (∀ (p : BrowserPool) (env : Env),
      p.initialized = true → p.max_browsers = 2 →
      p.sessions.length = 2 → (∀ s ∈ p.sessions, s.in_use = true) →
      p.get_session env =
        .ok (none, { p with total_requests_handled :=
                              p.total_requests_handled + 1 })) := by
  constructor
  · intro p h
    exact (reachable_PoolInv (by norm_num) p h).2.1
  · intro p env hinit hmax hlen hbusy
    unfold BrowserPool.get_session
    rw [if_pos hinit]
    dsimp only
    unfold BrowserPool.get_session_core
    dsimp only
    have hscan : scanFree p.sessions = none := by
      unfold scanFree
      rw [List.find?_eq_none]
      intro s hs
      simp [hbusy s hs]
    have hscan2 : scanFree
        ({ p with total_requests_handled :=
             p.total_requests_handled + 1 } : BrowserPool).sessions =
          none := hscan
    rw [hscan]
    rw [if_neg (by rw [hlen, hmax]; omega)]
    dsimp only
    rw [waitLoop_of_scanFree_none _ env hscan2 30]

/-- Witness for C1: the fresh capacity-2 pool is reachable and within
capacity, and on `pBusy` — two sessions, both in use — `get_session`
returns `None` having only bumped `total_requests_handled` from 2 to
3. -/
theorem claim1_third_acquire_witness :
    (BrowserPool.mkNew 2).sessions.length ≤ 2 ∧
    pBusy.get_session envPlain =
      .ok (none, { pBusy with total_requests_handled := 3 }) :=
  ⟨claim1_third_acquire_never_exceeds_capacity.1 _ ReachablePool.base,
   claim1_third_acquire_never_exceeds_capacity.2 pBusy envPlain
     rfl rfl rfl (by decide)⟩

/-- C9: releasing a session id that is not in the pool's map returns
the failure indicator `False` (it cannot raise — the embedding is a
total function) and leaves the pool, hence every existing session's
`in_use`/`alive`/`logged_in`/`request_count`, completely unchanged. -/
theorem claim9_release_unknown_id_is_noop (p : BrowserPool)
    (sid : String) (h : ∀ s ∈ p.sessions, s.id ≠ sid) :
    p.release_session sid = (false, p) := by
  unfold BrowserPool.release_session
  rw [if_neg]
  simp only [List.any_eq_true, decide_eq_true_eq, not_exists]
  intro s hs
  exact h s hs.1 hs.2

/-- Witness for C9 on the concrete pool `pBusy` and an id absent from
its map. -/
theorem claim9_release_unknown_witness :
    pBusy.release_session "session_zz" = (false, pBusy) :=
  claim9_release_unknown_id_is_noop pBusy "session_zz" (by decide)

/-- C3 (the code does not do what the claim and its own recycling
machinery intend): `expiredSession` has `is_expired(20) = True` —
`request_count = 20` has reached `MAX_REQUESTS_PER_SESSION = 20` —
yet `get_session` hands it out: the scan checks only
`in_use`/`is_alive`, never `is_expired`, so the session is returned
(usage bumped to 21, marked in use), still alive and still in the
map, instead of being closed and removed. -/
theorem claim3_expired_session_returned_not_recycled :
    expiredSession.is_expired 100 20 = true ∧
    pWithExpired.get_session envPlain =
      .ok (some "session_old",
        { pWithExpired with sessions := [expiredSessionAfter],
                            total_requests_handled := 21 }) ∧
    expiredSessionAfter.is_alive = true ∧
    expiredSessionAfter.in_use = true ∧
    expiredSessionAfter.request_count = 21 :=
  ⟨by decide, rfl, rfl, rfl, rfl⟩

/-- Counterexample to C2: it is not the case that the suspension
points of acquire and release run without the lock — on the concrete
source paths transcribed in `release_session_trace`,
`get_session_busy_trace` and `get_session_create_trace`, awaited I/O
and sleeps occur at positive lock depth. -/
theorem claim2_lock_counterexample :
    ¬ (suspensionsUnderLock release_session_trace = [] ∧
       suspensionsUnderLock get_session_busy_trace = [] ∧
       suspensionsUnderLock get_session_create_trace = []) := by
  decide

/-- C2 as amended: far from never holding the lock across I/O, the
code holds the lock across every suspension point of these paths —
each awaited I/O or sleep in the release path (the storage
persistence), in the pool-full wait path (all 30 `asyncio.sleep(1)`
calls of the bounded wait loop) and in the creation path (browser
launch and login navigation) executes at lock depth exactly 1, and
each of these paths does contain suspension points. -/
theorem claim2_lock_held_across_io_amended :
    ((suspensionDepths 0 release_session_trace).all
        fun x => x.2 = 1) = true ∧
    ((suspensionDepths 0 get_session_busy_trace).all
        fun x => x.2 = 1) = true ∧
    ((suspensionDepths 0 get_session_create_trace).all
        fun x => x.2 = 1) = true ∧
    suspensionDepths 0 release_session_trace ≠ [] ∧
    (suspensionDepths 0 get_session_busy_trace).length = 30 ∧
    (suspensionDepths 0 get_session_create_trace).length = 2 := by
  refine ⟨?_, ?_, ?_, ?_, ?_, ?_⟩ <;> decide

/-- Counterexample to C5: when a session was acquired and
`_fetch_event_data` exhausts its 3 navigation attempts, the outer
handler of `get_event_listings` re-raises instead of returning a
result — here at the concrete event id `"6927428"`. -/
theorem claim5_navigation_failure_raises :
    get_event_listings "6927428" (.acquired "session_a")
        .failedAllRetries [] =
      .error
        "Failed to navigate to event page for 6927428 after multiple attempts" :=
  rfl

/-- C5 as amended: pool exhaustion and a raising `get_session` are
converted into a returned result with an empty listings list and a
populated `error` entry in both `stats` and `metadata`; a fetch whose
interception produced nothing returns a processed result with the
empty listings it got (and no `error` entry in its metadata); but a
navigation failure after the 3 bounded attempts is re-raised to the
caller rather than returned. -/
theorem claim5_failure_semantics_amended (event_id sid msg : String)
    (nav : NavOutcome) (intercepted : List Listing) :
    (get_event_listings event_id .exhausted nav intercepted =
      .ok { event_id := event_id, listings := [],
            statsCount := some 0,
            statsError := some "Browser session unavailable",
            priceStats := none,
            metadataError := some "Browser pool exhausted" }) ∧
    (get_event_listings event_id (.raised msg) nav intercepted =
      .ok { event_id := event_id, listings := [],
            statsCount := some 0,
            statsError := some msg,
            priceStats := none,
            metadataError := some "Browser session error" }) ∧
    (get_event_listings event_id (.acquired sid) .ok intercepted =
      .ok { event_id := event_id, listings := intercepted,
            statsCount := none, statsError := none,
            priceStats := some (computeStats intercepted),
            metadataError := none }) ∧
    (get_event_listings event_id (.acquired sid) .failedAllRetries
        intercepted =
      .error ("Failed to navigate to event page for " ++ event_id ++
              " after multiple attempts")) :=
  ⟨rfl, rfl, rfl, rfl⟩

/-- Counterexample to C8: after its first execution a job's status is
`"completed"` and is never reset to `"scheduled"` by rescheduling, so
its next execution transitions `"completed" → "running"` directly — a
transition outside the chain
`scheduled→running→{completed,failed}→scheduled`. -/
theorem claim8_status_chain_counterexample :
    jobAfterFirstRun.status = "completed" ∧
    jobAfterFirstRun.status ≠ "scheduled" ∧
    transitionPairs (jobAfterFirstRun.statusTrace .success) =
      [("completed", "running"), ("running", "completed")] ∧
    ((transitionPairs (jobAfterFirstRun.statusTrace .success)).all
        allowedTransition) = false ∧
    allowedTransition ("completed", "running") = false := by
  refine ⟨?_, ?_, ?_, ?_, ?_⟩ <;> decide

/-- C8 as amended: each execution moves the status from its current
value (initially `"scheduled"`, thereafter `"completed"` or
`"failed"`) to `"running"` and then to `"completed"` on success or
`"failed"` on exception; rescheduling never returns the status to
`"scheduled"` — `_schedule_next_run` leaves it at the execution's
final value, so the next execution transitions it to `"running"`
directly from `"completed"`/`"failed"`. -/
theorem claim8_status_transitions_amended (j : Job) (o : FuncOutcome)
    (t_start t_end draw : ℚ) :
    (j.execute o t_start t_end draw).status = outcomeStatus o ∧
    outcomeStatus o ≠ "scheduled" ∧
    j.statusTrace o = [j.status, "running", outcomeStatus o] ∧
    ((j.execute o t_start t_end draw).status = "completed" ∨
     (j.execute o t_start t_end draw).status = "failed") := by
  refine ⟨?_, ?_, rfl, ?_⟩
  · cases o <;> rfl
  · cases o <;> simp [outcomeStatus]
  · cases o
    · left
      rfl
    · right
      rfl

/-- `roundHalfEven` is the identity on integers. -/
theorem roundHalfEven_intCast (n : ℤ) : roundHalfEven (n : ℚ) = n := by
  unfold roundHalfEven
  rw [Int.floor_intCast]
  rw [if_pos (by norm_num)]

/-- `round(x, 2)` is the identity on integer values. -/
theorem pyRound2_intCast (n : ℤ) : pyRound2 (n : ℚ) = n := by
  unfold pyRound2
  have h1 : ((n : ℚ) * 100) = ((n * 100 : ℤ) : ℚ) := by push_cast; ring
  rw [h1, roundHalfEven_intCast]
  push_cast
  field_simp

/-- C6: on listings priced 10, 20, 30, 40 the stats are
`min=10, max=40, avg=25` and `median=30` — the element at index
`len//2 = 2` of the sorted 4-element price list — with all four
listings counted; and on an empty listings list the computation
returns (it is a total function, never an error or null) with
`min=max=avg=median=0` and `total=0`. -/
theorem claim6_stats_sample_and_empty :
    (computeStats sampleListings).total_listings = 4 ∧
    (computeStats sampleListings).min_price = 10 ∧
    (computeStats sampleListings).max_price = 40 ∧
    (computeStats sampleListings).avg_price = 25 ∧
    (computeStats sampleListings).median_price = 30 ∧
    (computeStats []).total_listings = 0 ∧
    (computeStats []).min_price = 0 ∧
    (computeStats []).max_price = 0 ∧
    (computeStats []).avg_price = 0 ∧
    (computeStats []).median_price = 0 := by
  have hprices : sampleListings.filterMap listingPrice =
      [10, 20, 30, 40] := by
    simp only [sampleListings, pricedListing, List.filterMap_cons,
      List.filterMap_nil, listingPrice]
    norm_num
  have hsorted : sortPrices [10, 20, 30, 40] =
      ([10, 20, 30, 40] : List ℚ) := by
    norm_num [sortPrices, insertSorted]
  have p10 : pyRound2 (10 : ℚ) = 10 := by
    have := pyRound2_intCast 10
    push_cast at this
    exact this
  have p40 : pyRound2 (40 : ℚ) = 40 := by
    have := pyRound2_intCast 40
    push_cast at this
    exact this
  have p25 : pyRound2 (25 : ℚ) = 25 := by
    have := pyRound2_intCast 25
    push_cast at this
    exact this
  have p30 : pyRound2 (30 : ℚ) = 30 := by
    have := pyRound2_intCast 30
    push_cast at this
    exact this
  have hmin : listMin [10, 20, 30, 40] = (10 : ℚ) := by
    simp [listMin]
    norm_num [min_def]
  have hmax : listMax [10, 20, 30, 40] = (40 : ℚ) := by
    simp [listMax]
    norm_num [max_def]
  have havg : List.foldl (· + ·) 0 ([10, 20, 30, 40] : List ℚ) /
      (([10, 20, 30, 40] : List ℚ).length : ℚ) = 25 := by
    simp only [List.foldl_cons, List.foldl_nil, List.length_cons,
      List.length_nil]
    norm_num
  have hmed : ([10, 20, 30, 40] : List ℚ).getD
      (([10, 20, 30, 40] : List ℚ).length / 2) 0 = 30 := rfl
  refine ⟨rfl, ?_, ?_, ?_, ?_, rfl, ?_, ?_, ?_, ?_⟩ <;>
    simp only [computeStats, hprices, hsorted, List.filterMap_nil,
      List.cons_ne_nil, if_false, reduceIte, roundIfTruthy]
  · rw [hmin, if_neg (by norm_num), p10]
  · rw [hmax, if_neg (by norm_num), p40]
  · rw [havg, if_neg (by norm_num), p25]
  · rw [hmed, if_neg (by norm_num), p30]

/-- One `sections[section] += 1` step adds exactly one to the total of
the per-section counts. -/
theorem bumpSection_snd_sum (secs : List (String × Nat)) (name : String) :
    ((bumpSection secs name).map Prod.snd).sum =
      (secs.map Prod.snd).sum + 1 := by
  induction secs with
  | nil => simp [bumpSection]
  | cons kv rest ih =>
    obtain ⟨k, v⟩ := kv
    by_cases h : k = name
    · simp [bumpSection, h]
      omega
    · simp [bumpSection, h, ih]
      omega

/-- Folding the section tally over listings adds one per listing. -/
theorem sectionCounts_snd_sum_aux (ls : List Listing) :
    ∀ acc : List (String × Nat),
      ((ls.foldl
          (fun acc l => bumpSection acc (l.sectionName.getD "Unknown"))
          acc).map Prod.snd).sum =
        (acc.map Prod.snd).sum + ls.length := by
  induction ls with
  | nil => intro acc; simp
  | cons l rest ih =>
    intro acc
    simp only [List.foldl_cons, List.length_cons]
    rw [ih, bumpSection_snd_sum]
    omega

/-- Every listing is counted in exactly one per-section count. -/
theorem sectionCounts_snd_sum (ls : List Listing) :
    ((sectionCounts ls).map Prod.snd).sum = ls.length := by
  have h := sectionCounts_snd_sum_aux ls []
  simpa [sectionCounts] using h

/-- C10: a listing contributes a price exactly when its
`sellerAllInPrice.amt` exists, is non-`None` and is strictly positive
(so missing/`None`/non-positive values are excluded); every listing is
counted in `total_listings` and in the per-section counts regardless;
and consequently a non-empty listings list with no qualifying price
yields `total_listings > 0` with
`min_price = max_price = avg_price = median_price = 0`. -/
theorem claim10_unpriced_listings_excluded_but_counted :
    (∀ l : Listing,
        listingPrice l = none ↔
          ¬ ∃ (sp : SellerPrice) (q : ℚ),
              l.sellerAllInPrice = some sp ∧ sp.amt = some (some q) ∧
              0 < q) ∧
    (∀ ls : List Listing,
        (computeStats ls).total_listings = ls.length ∧
        ((computeStats ls).sections.map Prod.snd).sum = ls.length) ∧
    (∀ ls : List Listing, ls ≠ [] →
        (∀ l ∈ ls, listingPrice l = none) →
        0 < (computeStats ls).total_listings ∧
        (computeStats ls).min_price = 0 ∧
        (computeStats ls).max_price = 0 ∧
        (computeStats ls).avg_price = 0 ∧
        (computeStats ls).median_price = 0) := by
  refine ⟨?_, ?_, ?_⟩
  · intro l
    cases hsp : l.sellerAllInPrice with
    | none => simp [listingPrice, hsp]
    | some sp =>
      cases hamt : sp.amt with
      | none => simp [listingPrice, hsp, hamt]
      | some o =>
        cases o with
        | none => simp [listingPrice, hsp, hamt]
        | some q =>
          by_cases hq : 0 < q
          · simp [listingPrice, hsp, hamt, hq]
          · simp [listingPrice, hsp, hamt, hq]
  · intro ls
    exact ⟨rfl, sectionCounts_snd_sum ls⟩
  · intro ls hne hall
    have hpr : ls.filterMap listingPrice = [] :=
      List.filterMap_eq_nil_iff.mpr hall
    refine ⟨List.length_pos.mpr hne, ?_, ?_, ?_, ?_⟩ <;>
      simp [computeStats, hpr, roundIfTruthy]

/-- Witness for C10: a one-element listings list whose only listing
carries a non-positive `sellerAllInPrice.amt`. -/
theorem claim10_unpriced_witness :
    0 < (computeStats [unpricedListing]).total_listings ∧
    (computeStats [unpricedListing]).min_price = 0 ∧
    (computeStats [unpricedListing]).max_price = 0 ∧
    (computeStats [unpricedListing]).avg_price = 0 ∧
    (computeStats [unpricedListing]).median_price = 0 :=
  claim10_unpriced_listings_excluded_but_counted.2.2 [unpricedListing]
    (by simp)
    (by
      intro l hl
      rw [List.mem_singleton] at hl
      subst hl
      norm_num [listingPrice, unpricedListing])
